import Mathlib

/-!
Verification development for the Webhook Event Relay System.

The definitions below are a shallow embedding of the repository's backend:
the event controller (`src/backend/src/controllers/event.controller.ts`),
the admin controller (`src/backend/src/controllers/admin.controller.ts`),
the delivery worker (`src/backend/src/workers/webhook.worker.ts`), the
webhook service (queue enqueues) and the security utilities
(`SecurityUtils`).  The Prisma store is modelled as explicit state
(`Store`), the BullMQ queue as a list of jobs, timestamps and generated
ids/secrets as explicit parameters, and the outbound HTTP call of a
delivery attempt as an `HttpOutcome` parameter.  Machine behaviour such as
Node's `crypto` HMAC-SHA256 is embedded as an executable Lean
implementation of the same algorithm.
-/

namespace WebhookRelay

/-! ## JSON values and JSON.stringify

JavaScript values handled by the controllers are JSON documents.  `Json`
models them; `jsonStringify` embeds `JSON.stringify` (compact form, no
whitespace, double-quoted strings with the standard escapes).  Numbers are
restricted to integers, which is the only numeric payload the claims need.
-/

inductive Json where
  | null : Json
  | bool (b : Bool) : Json
  | num (n : Int) : Json
  | str (s : String) : Json
  | arr (xs : List Json) : Json
  | obj (fields : List (String × Json)) : Json
deriving Repr

/-- Left curly brace character (kept as a code point). -/
def lcurly : Char := Char.ofNat 123

/-- Right curly brace character (kept as a code point). -/
def rcurly : Char := Char.ofNat 125

/-- Hexadecimal digit characters in lowercase, as `Buffer.toString('hex')`
and JSON `\u00XX` escapes produce them: code point 48 starts the decimal
digits, 97 the lowercase letters. -/
def hexDigitChar (n : Nat) : Char :=
  if n < 10 then Char.ofNat (n + 48) else Char.ofNat (n + 87)

/-- JSON escape of one character inside a double-quoted string literal,
following `JSON.stringify`. -/
def escChar (c : Char) : List Char :=
  if c = '\"' then [ '\\', '\"' ]
  else if c = '\\' then [ '\\', '\\' ]
  else if c = Char.ofNat 8 then [ '\\', 'b' ]
  else if c = Char.ofNat 12 then [ '\\', 'f' ]
  else if c = '\n' then [ '\\', 'n' ]
  else if c = '\r' then [ '\\', 'r' ]
  else if c = '\t' then [ '\\', 't' ]
  else if c.toNat < 32 then
    [ '\\', 'u', '0', '0', hexDigitChar (c.toNat / 16), hexDigitChar (c.toNat % 16) ]
  else [c]

/-- JSON escape of a character list. -/
def escapeChars : List Char → List Char
  | [] => []
  | c :: cs => escChar c ++ escapeChars cs

/-- Characters of a JSON string literal: quotes around the escaped body. -/
def strLitChars (s : String) : List Char :=
  '\"' :: (escapeChars s.data ++ [ '\"' ])

mutual

/-- Characters of `JSON.stringify` of a value. -/
def jsonChars : Json → List Char
  | .null => "null".data
  | .bool true => "true".data
  | .bool false => "false".data
  | .num n => (toString n).data
  | .str s => strLitChars s
  | .arr xs => '[' :: (arrChars xs ++ [ ']' ])
  | .obj fs => lcurly :: (objChars fs ++ [rcurly])

/-- Characters of a comma-separated array body. -/
def arrChars : List Json → List Char
  | [] => []
  | [x] => jsonChars x
  | x :: y :: xs => jsonChars x ++ (',' :: arrChars (y :: xs))

/-- Characters of a comma-separated object body. -/
def objChars : List (String × Json) → List Char
  | [] => []
  | [(k, v)] => strLitChars k ++ (':' :: jsonChars v)
  | (k, v) :: f :: fs => strLitChars k ++ (':' :: jsonChars v) ++ (',' :: objChars (f :: fs))

end

/-- Embedding of `JSON.stringify` (compact output, as Node produces for the
controllers' calls). -/
def jsonStringify (j : Json) : String := String.mk (jsonChars j)

/-- Whether the JSON value is a JavaScript object literal. -/
def Json.isObj : Json → Bool
  | .obj _ => true
  | _ => false

/-- Whether `typeof v === 'object'` holds for the non-null JSON value `v`
(JavaScript arrays and objects). -/
def Json.isObjectTypeof : Json → Bool
  | .obj _ => true
  | .arr _ => true
  | _ => false

/-- Whether the value is the JavaScript `null` literal. -/
def Json.isNull : Json → Bool
  | .null => true
  | _ => false

/-- JavaScript truthiness of a JSON value (used by
`deliveryError.response?.data ? ... : null` in the worker). -/
def Json.isTruthy : Json → Bool
  | .null => false
  | .bool b => b
  | .num n => decide (n ≠ 0)
  | .str s => decide (s ≠ "")
  | .arr _ => true
  | .obj _ => true

/-! ## SHA-256, HMAC-SHA256, hex and UTF-8

Embedding of the Node `crypto` calls the repository makes:
`crypto.createHmac('sha256', secret).update(payload).digest('hex')`.
32-bit machine words are `Nat` reduced `% 2^32`. -/

/-- 2 to the 32nd power, the word modulus of SHA-256. -/
def pow32 : Nat := 4294967296

/-- Right rotation of a 32-bit word by `n` bits. -/
def rotr32 (n x : Nat) : Nat := ((x >>> n) ||| (x <<< (32 - n))) % pow32

/-- SHA-256 big sigma 0. -/
def bigSigma0 (x : Nat) : Nat := (rotr32 2 x) ^^^ (rotr32 13 x) ^^^ (rotr32 22 x)

/-- SHA-256 big sigma 1. -/
def bigSigma1 (x : Nat) : Nat := (rotr32 6 x) ^^^ (rotr32 11 x) ^^^ (rotr32 25 x)

/-- SHA-256 small sigma 0. -/
def smallSigma0 (x : Nat) : Nat := (rotr32 7 x) ^^^ (rotr32 18 x) ^^^ (x >>> 3)

/-- SHA-256 small sigma 1. -/
def smallSigma1 (x : Nat) : Nat := (rotr32 17 x) ^^^ (rotr32 19 x) ^^^ (x >>> 10)

/-- The 64 SHA-256 round constants (FIPS 180-4, written in decimal). -/
def sha256K : List Nat :=
  [ 1116352408, 1899447441, 3049323471, 3921009573, 961987163,
    1508970993, 2453635748, 2870763221, 3624381080, 310598401,
    607225278, 1426881987, 1925078388, 2162078206, 2614888103,
    3248222580, 3835390401, 4022224774, 264347078, 604807628,
    770255983, 1249150122, 1555081692, 1996064986, 2554220882,
    2821834349, 2952996808, 3210313671, 3336571891, 3584528711,
    113926993, 338241895, 666307205, 773529912, 1294757372,
    1396182291, 1695183700, 1986661051, 2177026350, 2456956037,
    2730485921, 2820302411, 3259730800, 3345764771, 3516065817,
    3600352804, 4094571909, 275423344, 430227734, 506948616,
    659060556, 883997877, 958139571, 1322822218, 1537002063,
    1747873779, 1955562222, 2024104815, 2227730452, 2361852424,
    2428436474, 2756734187, 3204031479, 3329325298 ]

/-- The SHA-256 initial hash state (FIPS 180-4, written in decimal). -/
def sha256H0 : List Nat :=
  [ 1779033703, 3144134277, 1013904242, 2773480762,
    1359893119, 2600822924, 528734635, 1541459225 ]

/-- Big-endian packing of bytes into 32-bit words. -/
def bytesToWords : List Nat → List Nat
  | a :: b :: c :: d :: rest =>
      ((a % 256) * 16777216 + (b % 256) * 65536 + (c % 256) * 256 + d % 256) :: bytesToWords rest
  | _ => []

/-- Split a word list into 16-word blocks (the padded input is always a
whole number of blocks). -/
def wordsToBlocks : List Nat → List (List Nat)
  | a0 :: a1 :: a2 :: a3 :: a4 :: a5 :: a6 :: a7 ::
    a8 :: a9 :: a10 :: a11 :: a12 :: a13 :: a14 :: a15 :: rest =>
      [ a0, a1, a2, a3, a4, a5, a6, a7, a8, a9, a10, a11, a12, a13, a14, a15 ]
        :: wordsToBlocks rest
  | _ => []

/-- Message-schedule extension: append `fuel` further words to `w`. -/
def extendW : List Nat → Nat → List Nat
  | w, 0 => w
  | w, fuel + 1 =>
      let i := w.length
      let nw := (smallSigma1 (w.getD (i - 2) 0) + w.getD (i - 7) 0 +
                 smallSigma0 (w.getD (i - 15) 0) + w.getD (i - 16) 0) % pow32
      extendW (w ++ [nw]) fuel

/-- One SHA-256 compression round on the 8-word state. -/
def sha256Round (hs : List Nat) (k w : Nat) : List Nat :=
  let a := hs.getD 0 0
  let b := hs.getD 1 0
  let c := hs.getD 2 0
  let d := hs.getD 3 0
  let e := hs.getD 4 0
  let f := hs.getD 5 0
  let g := hs.getD 6 0
  let h := hs.getD 7 0
  let ch := (e &&& f) ^^^ ((0xffffffff ^^^ e) &&& g)
  let temp1 := (h + bigSigma1 e + ch + k + w) % pow32
  let maj := (a &&& b) ^^^ (a &&& c) ^^^ (b &&& c)
  let temp2 := (bigSigma0 a + maj) % pow32
  [ (temp1 + temp2) % pow32, a, b, c, (d + temp1) % pow32, e, f, g ]

/-- SHA-256 compression of one 16-word block into the running state. -/
def compressBlock (hs : List Nat) (block : List Nat) : List Nat :=
  let ws := extendW block 48
  let final := (sha256K.zip ws).foldl (fun st kw => sha256Round st kw.1 kw.2) hs
  (hs.zip final).map (fun p => (p.1 + p.2) % pow32)

/-- Big-endian bytes of a 32-bit word. -/
def wordToBytes (w : Nat) : List Nat :=
  [ w / 16777216 % 256, w / 65536 % 256, w / 256 % 256, w % 256 ]

/-- Concatenated big-endian bytes of a word list. -/
def bytesOfWords : List Nat → List Nat
  | [] => []
  | w :: ws => wordToBytes w ++ bytesOfWords ws

/-- SHA-256 padding: a 0x80 byte, zeros to 56 mod 64, and the 64-bit
big-endian bit length. -/
def sha256Pad (msg : List Nat) : List Nat :=
  let L := msg.length
  let zeros := (64 - (L + 9) % 64) % 64
  let bitLen := L * 8
  msg ++ [0x80] ++ List.replicate zeros 0 ++ wordToBytes (bitLen / pow32) ++ wordToBytes (bitLen % pow32)

/-- SHA-256 of a byte list, yielding the 32 digest bytes. -/
def sha256 (msg : List Nat) : List Nat :=
  bytesOfWords ((wordsToBlocks (bytesToWords (sha256Pad msg))).foldl compressBlock sha256H0)

/-- HMAC-SHA256 (RFC 2104) of a message under a key, the semantics of
Node's `crypto.createHmac('sha256', key).update(msg).digest()`. -/
def hmacSha256 (key msg : List Nat) : List Nat :=
  let k0 := if 64 < key.length then sha256 key else key
  let kp := k0 ++ List.replicate (64 - k0.length) 0
  sha256 ((kp.map (fun b => b ^^^ 0x5c)) ++ sha256 ((kp.map (fun b => b ^^^ 0x36)) ++ msg))

/-- Two lowercase hex characters of one byte. -/
def byteHexChars (b : Nat) : List Char :=
  [ hexDigitChar (b / 16 % 16), hexDigitChar (b % 16) ]

/-- Lowercase hex characters of a byte list. -/
def hexChars : List Nat → List Char
  | [] => []
  | b :: bs => byteHexChars b ++ hexChars bs

/-- Lowercase hex encoding of a byte list, the semantics of Node's
`digest('hex')`. -/
def hexOfBytes (bs : List Nat) : String := String.mk (hexChars bs)

/-- UTF-8 bytes of one character. -/
def utf8Char (c : Char) : List Nat :=
  let n := c.toNat
  if n < 128 then [n]
  else if n < 2048 then [ 192 + n / 64, 128 + n % 64 ]
  else if n < 65536 then [ 224 + n / 4096, 128 + n / 64 % 64, 128 + n % 64 ]
  else [ 240 + n / 262144, 128 + n / 4096 % 64, 128 + n / 64 % 64, 128 + n % 64 ]

/-- UTF-8 bytes of a character list. -/
def utf8List : List Char → List Nat
  | [] => []
  | c :: cs => utf8Char c ++ utf8List cs

/-- UTF-8 bytes of a string, the byte sequence Node's `Buffer.from(s)`
produces for the HMAC input. -/
def utf8Bytes (s : String) : List Nat := utf8List s.data

set_option maxRecDepth 100000 in
/-- FIPS 180-4 test vector: the SHA-256 digest of the empty message,
validating that the embedding of Node's `crypto` is the real SHA-256. -/
theorem sha256_empty_vector :
    hexOfBytes (sha256 [])
      = "e3b0c44298fc1c149afbf4c8996fb92427ae41e4649b934ca495991b7852b855" := by decide

set_option maxRecDepth 100000 in
/-- FIPS 180-4 test vector: the SHA-256 digest of `abc`. -/
theorem sha256_abc_vector :
    hexOfBytes (sha256 (utf8Bytes "abc"))
      = "ba7816bf8f01cfea414140de5dae2223b00361a396177a9cb410ff61f20015ad" := by decide

set_option maxRecDepth 100000 in
/-- RFC 4231 test case 1: HMAC-SHA256 with a 20-byte 0x0b key over
`Hi There`, validating the HMAC embedding. -/
theorem hmacSha256_rfc4231_vector :
    hexOfBytes (hmacSha256 (List.replicate 20 11) (utf8Bytes "Hi There"))
      = "b0344c61d8db38535ca8afceaf0bf12b881dc200c9833da726e9376c2e32cff7" := by decide

/-! ## SecurityUtils (src/utils/security.ts) -/

/-- Embeds `SecurityUtils.generateHmacSignature`: hex digest of
HMAC-SHA256 keyed by the secret over the payload string. -/
def generateHmacSignature (payload secret : String) : String :=
  hexOfBytes (hmacSha256 (utf8Bytes secret) (utf8Bytes payload))

/-- Embeds `SecurityUtils.generateWebhookSignature`: the signature header
value with its scheme tag. -/
def generateWebhookSignature (payload secret : String) : String :=
  "sha256=" ++ generateHmacSignature payload secret

/-- Embeds `SecurityUtils.isValidWebhookUrl`: `new URL(url)` must parse
and the protocol must be `http:` or `https:`.  Modelled for http(s) URLs
as the scheme followed by a nonempty remainder. -/
def isValidWebhookUrl (url : String) : Bool :=
  (List.isPrefixOf "http://".data url.data && decide (7 < url.data.length)) ||
  (List.isPrefixOf "https://".data url.data && decide (8 < url.data.length))

/-- Embeds `SecurityUtils.generateWebhookHeaders`: the outbound header
list of a delivery, with the timestamp in Unix seconds as a parameter
(the source reads `Date.now()`). -/
def generateWebhookHeaders (payload secret eventType eventId : String) (nowSec : Nat) :
    List (String × String) :=
  [ ("Content-Type", "application/json"),
    ("X-AlgoHire-Signature", generateWebhookSignature payload secret),
    ("X-AlgoHire-Timestamp", toString nowSec),
    ("X-AlgoHire-Event-Type", eventType),
    ("X-AlgoHire-Event-ID", eventId),
    ("User-Agent", "AlgoHire-Webhook-Relay/1.0") ]

/-! ## Data model: the Prisma entities and the queue

Timestamps are `Nat` (milliseconds or seconds are irrelevant to the
claims); generated ids and secrets are explicit parameters. -/

/-- An Event row (Prisma model `Event`). -/
structure Event where
  id : String
  idempotency_key : String
  event_type : String
  payload : Json
  received_at : Nat
deriving Repr

/-- A Subscription row (Prisma model `Subscription`). -/
structure Subscription where
  id : String
  event_type : String
  target_url : String
  secret_key : String
  is_active : Bool
  created_at : Nat
  updated_at : Nat
deriving Repr, DecidableEq

/-- Delivery log status values (`pending`, `success`, `failed`). -/
inductive DeliveryStatus where
  | pending : DeliveryStatus
  | success : DeliveryStatus
  | failed : DeliveryStatus
deriving Repr, DecidableEq

/-- A DeliveryLog row (Prisma model `DeliveryLog`). -/
structure DeliveryLog where
  id : String
  event_id : String
  subscription_id : String
  status : DeliveryStatus
  attempt_count : Nat
  attempted_at : Nat
  response_status_code : Option Nat
  response_body : Option String
  error_message : Option String
deriving Repr, DecidableEq

/-- A BullMQ job on the `webhook-delivery` queue: either a fan-out job
(`process-webhook-deliveries`) or an individual delivery job
(`deliver-webhook`). -/
inductive QueueJob where
  | fanout (eventId eventType : String) : QueueJob
  | delivery (eventId subscriptionId : String) : QueueJob
deriving Repr, DecidableEq

/-- The mutable shared state: the Prisma database plus the queue. -/
structure Store where
  events : List Event
  subscriptions : List Subscription
  deliveryLogs : List DeliveryLog
  queue : List QueueJob
deriving Repr

/-- Embeds `prisma.event.findUnique({where: {idempotency_key}})`. -/
def findEventByKey (k : String) (s : Store) : Option Event :=
  s.events.find? (fun e => e.idempotency_key == k)

/-- Embeds `prisma.event.findUnique({where: {id}})`. -/
def findEventById (i : String) (s : Store) : Option Event :=
  s.events.find? (fun e => e.id == i)

/-- Embeds `prisma.subscription.findUnique({where: {id}})`. -/
def findSubscriptionById (i : String) (s : Store) : Option Subscription :=
  s.subscriptions.find? (fun x => x.id == i)

/-- Embeds `prisma.deliveryLog.findUnique({where: {id}})`. -/
def findDeliveryLogById (i : String) (s : Store) : Option DeliveryLog :=
  s.deliveryLogs.find? (fun r => r.id == i)

/-- Embeds `prisma.deliveryLog.update({where: {id}})`: rewrite the row
with the matching id through `f`. -/
def updateLogById (logId : String) (f : DeliveryLog → DeliveryLog) (logs : List DeliveryLog) :
    List DeliveryLog :=
  logs.map (fun r => if r.id == logId then f r else r)

/-- Boolean predicate on the content of an optional value (`false` when
absent). -/
def optHolds (p : α → Bool) : Option α → Bool
  | some a => p a
  | none => false

/-! ## Event controller (src/controllers/event.controller.ts) -/

/-- The body of `POST /events` as the controller destructures it:
`eventType` (a missing field arrives as the empty string, the falsy case
the code checks) and `payload` (`none` models JavaScript `undefined`). -/
structure EventBody where
  eventType : String
  payload : Option Json
deriving Repr

/-- Response of the event endpoints: HTTP status with the fields of the
JSON body the claims inspect. -/
structure EventApiResponse where
  status : Nat
  code : Option String := none
  eventId : Option String := none
  receivedAt : Option Nat := none
  processedAt : Option Nat := none
deriving Repr, DecidableEq

/-- Allowed `eventType` characters, the class of the regex
`^[a-zA-Z0-9._-]+$`. -/
def isAllowedEventTypeChar (c : Char) : Bool :=
  ('a' ≤ c && c ≤ 'z') || ('A' ≤ c && c ≤ 'Z') || ('0' ≤ c && c ≤ '9') ||
  c == '.' || c == '_' || c == '-'

/-- Test of the regex `^[a-zA-Z0-9._-]+$` on a string. -/
def eventTypeRegexTest (s : String) : Bool :=
  !s.data.isEmpty && s.data.all isAllowedEventTypeChar

/-- JavaScript whitespace, as `String.prototype.trim` strips it (the
common cases; the claims only probe ASCII). -/
def isJsSpace (c : Char) : Bool :=
  c == ' ' || c == '\t' || c == '\n' || c == '\r' || c == Char.ofNat 11 || c == Char.ofNat 12

/-- Length of `s.trim()` in JavaScript. -/
def trimmedLength (s : String) : Nat :=
  ((s.data.dropWhile isJsSpace).reverse.dropWhile isJsSpace).length

/-- Embeds `EventController.validateEventRequest`; `some msg` is the
invalid case with its error text, `none` is valid.  The checks follow the
source's order; the size check is `JSON.stringify(payload).length` against
1 MiB. -/
def validateEventRequest (body : EventBody) : Option String :=
  if body.eventType == "" then some "eventType is required and must be a string"
  else if trimmedLength body.eventType == 0 then some "eventType cannot be empty"
  else if !eventTypeRegexTest body.eventType then
    some "eventType must contain only alphanumeric characters, dots, underscores, and hyphens"
  else
    match body.payload with
    | none => some "payload is required"
    | some p =>
      if p.isNull then some "payload is required"
      else if !p.isObjectTypeof then some "payload must be an object"
      else if 1048576 < (jsonStringify p).length then some "payload size exceeds 1MB limit"
      else none

/-- Embeds `EventController.processEvent` with an explicit interleaving
point: `between` is the list of events concurrent winners insert after
this request's `findUnique` and before its `create` (empty in the
sequential run).  A `create` that then hits the unique constraint lands in
the catch branch returning 409 `DUPLICATE_IDEMPOTENCY_KEY`, exactly as the
source's `Unique constraint` handler does. -/
def processEventCore (idempotencyKey : Option String) (body : EventBody)
    (freshId : String) (now : Nat) (s : Store) (between : List Event) :
    Store × EventApiResponse :=
  match idempotencyKey with
  | none => (s, { status := 400, code := some "MISSING_IDEMPOTENCY_KEY" })
  | some k =>
    if k == "" then (s, { status := 400, code := some "MISSING_IDEMPOTENCY_KEY" })
    else
      match validateEventRequest body with
      | some _ => (s, { status := 400, code := some "VALIDATION_ERROR" })
      | none =>
        match findEventByKey k s with
        | some e =>
            (s, { status := 202, eventId := some e.id, processedAt := some e.received_at })
        | none =>
          let s1 : Store := { s with events := s.events ++ between }
          if s1.events.any (fun e => e.idempotency_key == k) then
            (s1, { status := 409, code := some "DUPLICATE_IDEMPOTENCY_KEY" })
          else
            let ev : Event := { id := freshId, idempotency_key := k,
                                event_type := body.eventType,
                                payload := (body.payload).getD Json.null,
                                received_at := now }
            ({ s1 with events := s1.events ++ [ev],
                       queue := s1.queue ++ [QueueJob.fanout freshId body.eventType] },
             { status := 202, eventId := some freshId, receivedAt := some now })

/-- Embeds `EventController.processEvent` in the sequential (race-free)
run. -/
def processEvent (idempotencyKey : Option String) (body : EventBody)
    (freshId : String) (now : Nat) (s : Store) : Store × EventApiResponse :=
  processEventCore idempotencyKey body freshId now s []

/-! ## Admin controller (src/controllers/admin.controller.ts) -/

/-- Response of the admin endpoints: HTTP status with the JSON body
fields the claims inspect. -/
structure AdminApiResponse where
  status : Nat
  code : Option String := none
  subscriptionId : Option String := none
  secretKey : Option String := none
  subscriptionActive : Option Bool := none
  logId : Option String := none
  eventId : Option String := none
deriving Repr, DecidableEq

/-- The body of `POST /subscriptions` as the controller destructures it
(`eventType`, `targetUrl`; anything else in the body, such as an
`isActive` field, is never read). -/
structure CreateSubRequest where
  eventType : String := ""
  targetUrl : String := ""
  isActive : Option Bool := none
deriving Repr

/-- The body of `PUT /subscriptions/:id`: each field is applied only when
present. -/
structure UpdateSubRequest where
  eventType : Option String := none
  targetUrl : Option String := none
  isActive : Option Bool := none
deriving Repr

/-- Embeds `AdminController.createSubscription`. -/
def createSubscription (req : CreateSubRequest) (freshId freshSecret : String) (now : Nat)
    (s : Store) : Store × AdminApiResponse :=
  if req.eventType == "" || req.targetUrl == "" then
    (s, { status := 400, code := some "VALIDATION_ERROR" })
  else if !isValidWebhookUrl req.targetUrl then
    (s, { status := 400, code := some "INVALID_URL" })
  else if s.subscriptions.any (fun x =>
      x.event_type == req.eventType && x.target_url == req.targetUrl && x.is_active) then
    (s, { status := 409, code := some "DUPLICATE_SUBSCRIPTION" })
  else
    let sub : Subscription := { id := freshId, event_type := req.eventType,
                                target_url := req.targetUrl, secret_key := freshSecret,
                                is_active := true, created_at := now, updated_at := now }
    ({ s with subscriptions := s.subscriptions ++ [sub] },
     { status := 201, subscriptionId := some freshId, secretKey := some freshSecret,
       subscriptionActive := some true })

/-- The patch `AdminController.updateSubscription` builds: present fields
overwrite, `updated_at` is refreshed. -/
def applyPatch (req : UpdateSubRequest) (now : Nat) (sub : Subscription) : Subscription :=
  { sub with
    event_type := req.eventType.getD sub.event_type,
    target_url := req.targetUrl.getD sub.target_url,
    is_active := req.isActive.getD sub.is_active,
    updated_at := now }

/-- Embeds `AdminController.updateSubscription`.  Note the source performs
no duplicate-subscription check on this path. -/
def updateSubscription (subscriptionId : String) (req : UpdateSubRequest) (now : Nat)
    (s : Store) : Store × AdminApiResponse :=
  if subscriptionId == "" then
    (s, { status := 400, code := some "MISSING_SUBSCRIPTION_ID" })
  else if optHolds (fun u => !isValidWebhookUrl u) req.targetUrl then
    (s, { status := 400, code := some "INVALID_URL" })
  else if s.subscriptions.any (fun x => x.id == subscriptionId) then
    ({ s with subscriptions :=
        s.subscriptions.map (fun x => if x.id == subscriptionId then applyPatch req now x else x) },
     { status := 200, subscriptionId := some subscriptionId })
  else (s, { status := 404, code := some "SUBSCRIPTION_NOT_FOUND" })

/-- Embeds `AdminController.retryFailedDelivery` together with the
`WebhookService.queueWebhookDelivery` enqueue it performs on success.  A
log whose subscription row is gone makes the source dereference `null`
and fall into the catch branch (500 `INTERNAL_ERROR`). -/
def retryFailedDelivery (logId : String) (s : Store) : Store × AdminApiResponse :=
  if logId == "" then (s, { status := 400, code := some "MISSING_LOG_ID" })
  else
    match findDeliveryLogById logId s with
    | none => (s, { status := 404, code := some "LOG_NOT_FOUND" })
    | some log =>
      if log.status = DeliveryStatus.success then
        (s, { status := 400, code := some "INVALID_RETRY" })
      else
        match findSubscriptionById log.subscription_id s with
        | none => (s, { status := 500, code := some "INTERNAL_ERROR" })
        | some sub =>
          if sub.is_active = false then
            (s, { status := 400, code := some "INACTIVE_SUBSCRIPTION" })
          else
            ({ s with queue := s.queue ++ [QueueJob.delivery log.event_id log.subscription_id] },
             { status := 200, logId := some logId, eventId := some log.event_id,
               subscriptionId := some log.subscription_id })

/-! ## Delivery worker (src/workers/webhook.worker.ts) -/

/-- Outcome of the outbound `axios.post`: an HTTP response (any status and
a parsed JSON body) or a transport-level error (DNS, connect, TLS,
timeout, aborted) with its error text. -/
inductive HttpOutcome where
  | response (status : Nat) (data : Json) : HttpOutcome
  | transportError (msg : String) : HttpOutcome

/-- Result of one processed delivery job: a normal completion or a thrown
error the queue sees as a failed attempt. -/
inductive JobResult where
  | completed (statusCode : Nat) : JobResult
  | thrown (msg : String) : JobResult
deriving Repr, DecidableEq

/-- The axios error message for a non-2xx response. -/
def axiosErrorMessage (status : Nat) : String :=
  "Request failed with status code " ++ toString status

/-- The worker's `substring(0, 1000)` truncation of a response body. -/
def truncateBody (s : String) : String := String.mk (s.data.take 1000)

/-- Embeds `WebhookWorker.processWebhookDelivery` for one queue dispatch.
`attemptNumber` is the queue-provided 1-based attempt number of the job
(BullMQ `attemptsMade + 1`); the source never reads it.  `now` and `fin`
are the two `new Date()` readings, `freshLogId` the id Prisma generates
for the created row, and `outcome` the result of the outbound POST. -/
def processWebhookDelivery (eventId subscriptionId : String) (attemptNumber : Nat)
    (freshLogId : String) (now fin : Nat) (outcome : HttpOutcome) (s : Store) :
    Store × JobResult :=
  match findEventById eventId s with
  | none => (s, JobResult.thrown ("Event not found: " ++ eventId))
  | some _ =>
    match findSubscriptionById subscriptionId s with
    | none => (s, JobResult.thrown ("Subscription not found: " ++ subscriptionId))
    | some sub =>
      if sub.is_active = false then
        (s, JobResult.thrown ("Subscription is inactive: " ++ subscriptionId))
      else
        let pendingLog : DeliveryLog :=
          { id := freshLogId, event_id := eventId, subscription_id := subscriptionId,
            status := DeliveryStatus.pending, attempt_count := 1, attempted_at := now,
            response_status_code := none, response_body := none, error_message := none }
        let s1 : Store := { s with deliveryLogs := s.deliveryLogs ++ [pendingLog] }
        match outcome with
        | HttpOutcome.response st data =>
          if 200 ≤ st && st < 300 then
            ({ s1 with deliveryLogs := updateLogById freshLogId (fun r =>
                 { r with status := DeliveryStatus.success,
                          response_status_code := some st,
                          response_body := some (truncateBody (jsonStringify data)),
                          attempted_at := fin }) s1.deliveryLogs },
             JobResult.completed st)
          else
            ({ s1 with deliveryLogs := updateLogById freshLogId (fun r =>
                 { r with status := DeliveryStatus.failed,
                          response_status_code := some st,
                          response_body := if data.isTruthy
                                           then some (truncateBody (jsonStringify data))
                                           else none,
                          error_message := some (axiosErrorMessage st),
                          attempted_at := fin }) s1.deliveryLogs },
             JobResult.thrown (axiosErrorMessage st))
        | HttpOutcome.transportError msg =>
            ({ s1 with deliveryLogs := updateLogById freshLogId (fun r =>
                 { r with status := DeliveryStatus.failed,
                          response_status_code := some 0,
                          response_body := none,
                          error_message := some msg,
                          attempted_at := fin }) s1.deliveryLogs },
             JobResult.thrown msg)

/-- The BullMQ retry loop of one delivery job: dispatch the attempts in
`tries` (each with its fresh log id and HTTP outcome) in order, stopping
early when an attempt completes; a thrown attempt is redelivered with the
next 1-based attempt number.  `MAX_RETRY_ATTEMPTS = 3` is `tries` of
length 3. -/
def runDeliveryAttempts (eventId subscriptionId : String) (attemptNo : Nat)
    (tries : List (String × HttpOutcome)) (now fin : Nat) (s : Store) : Store :=
  match tries with
  | [] => s
  | (logId, oc) :: rest =>
    let r := processWebhookDelivery eventId subscriptionId attemptNo logId now fin oc s
    match r.2 with
    | JobResult.completed _ => r.1
    | JobResult.thrown _ => runDeliveryAttempts eventId subscriptionId (attemptNo + 1) rest now fin r.1

/-- Boolean predicate on the content of an optional value (`true` when
absent). -/
def optNoneOr (p : α → Bool) : Option α → Bool
  | some a => p a
  | none => true

/-! ## Concrete fixtures used by witnesses and counterexamples -/

/-- An active subscription for `user.created`. -/
def subActive : Subscription :=
  { id := "s1", event_type := "user.created", target_url := "http://sink/ok",
    secret_key := "whsec1", is_active := true, created_at := 0, updated_at := 0 }

/-- A deactivated subscription for `user.created`. -/
def subInactive : Subscription :=
  { id := "s2", event_type := "user.created", target_url := "http://sink/ok",
    secret_key := "whsec2", is_active := false, created_at := 0, updated_at := 0 }

/-- A second active subscription for `user.created` on another URL. -/
def subOther : Subscription :=
  { id := "s3", event_type := "user.created", target_url := "http://other/x",
    secret_key := "whsec3", is_active := true, created_at := 0, updated_at := 0 }

/-- A stored event. -/
def ev1 : Event :=
  { id := "e1", idempotency_key := "k1", event_type := "user.created",
    payload := Json.obj [], received_at := 5 }

/-- A store with one event and one inactive subscription. -/
def storeInactive : Store :=
  { events := [ev1], subscriptions := [subInactive], deliveryLogs := [], queue := [] }

/-- A store with one event and one active subscription. -/
def storeActive : Store :=
  { events := [ev1], subscriptions := [subActive], deliveryLogs := [], queue := [] }

/-- A store with two subscriptions on distinct URLs. -/
def storeTwoSubs : Store :=
  { events := [], subscriptions := [subActive, subOther], deliveryLogs := [], queue := [] }

/-- The empty store. -/
def emptyStore : Store :=
  { events := [], subscriptions := [], deliveryLogs := [], queue := [] }

/-- A small valid ingestion body. -/
def validSmallBody : EventBody := { eventType := "user.created", payload := some (Json.obj []) }

/-- The event a race winner inserted under key `k1`. -/
def winnerEv : Event :=
  { id := "e9", idempotency_key := "k1", event_type := "user.created",
    payload := Json.obj [], received_at := 3 }

/-! ## Helper lemmas -/

/-- A `find?` skips a prefix on which the predicate is everywhere false. -/
theorem find?_append_all_neg (p : α → Bool) (xs ys : List α)
    (h : xs.all (fun x => !p x) = true) : (xs ++ ys).find? p = ys.find? p := by
  induction xs with
  | nil => rfl
  | cons a as ih =>
    simp only [List.all_cons, Bool.and_eq_true, Bool.not_eq_true'] at h
    rw [List.cons_append, List.find?_cons_of_neg _ (by simp [h.1])]
    exact ih h.2

/-- A prisma `update` by id on rows appended after a fresh row rewrites
only the fresh row. -/
theorem updateLogById_append_fresh (logId : String) (f : DeliveryLog → DeliveryLog)
    (xs : List DeliveryLog) (y : DeliveryLog)
    (hxs : xs.all (fun r => r.id != logId) = true) (hy : y.id = logId) :
    updateLogById logId f (xs ++ [y]) = xs ++ [f y] := by
  induction xs with
  | nil => simp [updateLogById, hy]
  | cons a as ih =>
    simp only [List.all_cons, Bool.and_eq_true, bne_iff_ne, ne_eq] at hxs
    simp only [updateLogById, List.cons_append, List.map_cons] at ih ⊢
    rw [ih hxs.2]
    simp [hxs.1]

/-- A dropped delivery dispatch: missing event, missing subscription or an
inactive subscription all make the worker throw before any row is
created. -/
theorem processWebhookDelivery_inactive_step
    (eventId subscriptionId : String) (attemptNumber : Nat) (freshLogId : String)
    (now fin : Nat) (outcome : HttpOutcome) (s : Store)
    (hsub : optNoneOr (fun sub => !sub.is_active) (findSubscriptionById subscriptionId s) = true) :
    ∃ msg, processWebhookDelivery eventId subscriptionId attemptNumber freshLogId now fin outcome s
      = (s, JobResult.thrown msg) := by
  unfold processWebhookDelivery
  cases hev : findEventById eventId s with
  | none => exact ⟨_, rfl⟩
  | some e =>
    cases hs : findSubscriptionById subscriptionId s with
    | none => exact ⟨_, rfl⟩
    | some sub =>
      rw [hs] at hsub
      simp only [optNoneOr, Bool.not_eq_true'] at hsub
      simp [hsub]

/-- The whole BullMQ retry sequence of a job whose subscription is missing
or inactive leaves the store untouched. -/
theorem runDeliveryAttempts_inactive (eventId subscriptionId : String)
    (now fin : Nat) (s : Store)
    (hsub : optNoneOr (fun sub => !sub.is_active) (findSubscriptionById subscriptionId s) = true) :
    ∀ (attemptNo : Nat) (tries : List (String × HttpOutcome)),
      runDeliveryAttempts eventId subscriptionId attemptNo tries now fin s = s := by
  intro attemptNo tries
  induction tries generalizing attemptNo with
  | nil => rfl
  | cons t rest ih =>
    obtain ⟨msg, hm⟩ := processWebhookDelivery_inactive_step eventId subscriptionId
      attemptNo t.1 now fin t.2 s hsub
    simpa [runDeliveryAttempts, hm] using ih (attemptNo + 1)

/-! ## Claim C1 -/

/-- C1 (amended): for every delivery job whose subscription is missing or
has `is_active = false`, the worker creates no DeliveryLog row, but it
does not complete the job successfully — it throws (`Subscription not
found` / `Subscription is inactive`), so the queue sees a failed attempt.
Every redelivery throws again, so a posted event of a deactivated
subscription's event_type still produces zero DeliveryLog rows for that
subscription. -/
theorem C1_drop_without_log_but_job_fails
    (eventId subscriptionId : String) (attemptNumber : Nat) (freshLogId : String)
    (now fin : Nat) (outcome : HttpOutcome) (s : Store)
    (hsub : optNoneOr (fun sub => !sub.is_active) (findSubscriptionById subscriptionId s) = true) :
    (processWebhookDelivery eventId subscriptionId attemptNumber freshLogId now fin outcome s).1
      = s ∧
    (∃ msg, (processWebhookDelivery eventId subscriptionId attemptNumber freshLogId now fin
        outcome s).2 = JobResult.thrown msg) ∧
    (∀ (attemptNo : Nat) (tries : List (String × HttpOutcome)),
      (runDeliveryAttempts eventId subscriptionId attemptNo tries now fin s).deliveryLogs
        = s.deliveryLogs) := by
  obtain ⟨msg, hm⟩ := processWebhookDelivery_inactive_step eventId subscriptionId
    attemptNumber freshLogId now fin outcome s hsub
  refine ⟨by rw [hm], ⟨msg, by rw [hm]⟩, ?_⟩
  intro attemptNo tries
  rw [runDeliveryAttempts_inactive eventId subscriptionId now fin s hsub attemptNo tries]

/-- C1 witness: the theorem applied to a concrete store holding an
inactive subscription. -/
theorem C1_drop_witness :
    (processWebhookDelivery "e1" "s2" 1 "log1" 0 0
        (HttpOutcome.response 200 (Json.obj [])) storeInactive).1 = storeInactive ∧
    (∃ msg, (processWebhookDelivery "e1" "s2" 1 "log1" 0 0
        (HttpOutcome.response 200 (Json.obj [])) storeInactive).2 = JobResult.thrown msg) ∧
    (∀ (attemptNo : Nat) (tries : List (String × HttpOutcome)),
      (runDeliveryAttempts "e1" "s2" attemptNo tries 0 0 storeInactive).deliveryLogs
        = storeInactive.deliveryLogs) :=
  C1_drop_without_log_but_job_fails "e1" "s2" 1 "log1" 0 0
    (HttpOutcome.response 200 (Json.obj [])) storeInactive (by decide)

/-- C1 counterexample: on a concrete inactive subscription the worker
throws rather than completing the job successfully, refuting the claim's
"completes the job successfully". -/
theorem C1_drop_counterexample :
    (processWebhookDelivery "e1" "s2" 1 "log1" 0 0
        (HttpOutcome.response 200 (Json.obj [])) storeInactive).2
      = JobResult.thrown ("Subscription is inactive: " ++ "s2") ∧
    ∀ st, (processWebhookDelivery "e1" "s2" 1 "log1" 0 0
        (HttpOutcome.response 200 (Json.obj [])) storeInactive).2 ≠ JobResult.completed st := by
  refine ⟨rfl, ?_⟩
  intro st h
  rw [show (processWebhookDelivery "e1" "s2" 1 "log1" 0 0
      (HttpOutcome.response 200 (Json.obj [])) storeInactive).2
      = JobResult.thrown ("Subscription is inactive: " ++ "s2") from rfl] at h
  simp at h

/-! ## Claim C4 -/

/-- C4 (amended): a delivery attempt that ends in a transport-level error
finishes its DeliveryLog row as `failed` with `response_status_code = 0`
(the source's `deliveryError.response?.status || 0` turns the absent
response into `0`, not SQL NULL), `response_body = null`, and the
transport error text in `error_message`; the worker then re-throws so the
queue retries. -/
theorem C4_transport_error_zero_status_code
    (eventId subscriptionId : String) (attemptNumber : Nat) (freshLogId : String)
    (now fin : Nat) (msg : String) (s : Store) (e : Event) (sub : Subscription)
    (hev : findEventById eventId s = some e)
    (hsub : findSubscriptionById subscriptionId s = some sub)
    (hact : sub.is_active = true)
    (hfresh : s.deliveryLogs.all (fun r => r.id != freshLogId) = true) :
    processWebhookDelivery eventId subscriptionId attemptNumber freshLogId now fin
        (HttpOutcome.transportError msg) s =
      ({ s with deliveryLogs := s.deliveryLogs ++
          [{ id := freshLogId, event_id := eventId, subscription_id := subscriptionId,
             status := DeliveryStatus.failed, attempt_count := 1, attempted_at := fin,
             response_status_code := some 0, response_body := none,
             error_message := some msg }] },
       JobResult.thrown msg) := by
  unfold processWebhookDelivery
  rw [hev, hsub]
  simp only [hact, Bool.true_eq_false, if_false]
  rw [updateLogById_append_fresh freshLogId _ s.deliveryLogs _ hfresh rfl]

/-- C4 witness: the theorem applied to a concrete connection failure. -/
theorem C4_transport_error_witness :
    processWebhookDelivery "e1" "s1" 1 "log1" 0 2
        (HttpOutcome.transportError "connect ECONNREFUSED") storeActive =
      ({ storeActive with deliveryLogs := storeActive.deliveryLogs ++
          [{ id := "log1", event_id := "e1", subscription_id := "s1",
             status := DeliveryStatus.failed, attempt_count := 1, attempted_at := 2,
             response_status_code := some 0, response_body := none,
             error_message := some "connect ECONNREFUSED" }] },
       JobResult.thrown "connect ECONNREFUSED") :=
  C4_transport_error_zero_status_code "e1" "s1" 1 "log1" 0 2 "connect ECONNREFUSED"
    storeActive ev1 subActive rfl rfl rfl rfl

/-- C4 counterexample: at a concrete transport error the written row
carries `response_status_code = some 0`, not NULL, refuting the claim's
`response_status_code = null`. -/
theorem C4_transport_error_counterexample :
    ((processWebhookDelivery "e1" "s1" 1 "log1" 0 2
        (HttpOutcome.transportError "connect ECONNREFUSED") storeActive).1.deliveryLogs.map
        (fun r => (r.status, r.response_status_code, r.response_body, r.error_message)))
      = [(DeliveryStatus.failed, some 0, none, some "connect ECONNREFUSED")] ∧
    (some 0 : Option Nat) ≠ none := ⟨rfl, by decide⟩

/-! ## Claim C7 -/

/-- C7: `POST /delivery-logs/:id/retry` returns 400 `INVALID_RETRY` on a
successful log, 400 `INACTIVE_SUBSCRIPTION` on an inactive subscription,
and otherwise enqueues a fresh delivery job for the log's (event,
subscription) while leaving every DeliveryLog row (and the rest of the
store) unmodified. -/
theorem C7_retry_endpoint_contract :
    (∀ (logId : String) (s : Store) (log : DeliveryLog),
      (logId != "") = true →
      findDeliveryLogById logId s = some log →
      log.status = DeliveryStatus.success →
      retryFailedDelivery logId s = (s, { status := 400, code := some "INVALID_RETRY" })) ∧
    (∀ (logId : String) (s : Store) (log : DeliveryLog) (sub : Subscription),
      (logId != "") = true →
      findDeliveryLogById logId s = some log →
      log.status ≠ DeliveryStatus.success →
      findSubscriptionById log.subscription_id s = some sub →
      sub.is_active = false →
      retryFailedDelivery logId s = (s, { status := 400, code := some "INACTIVE_SUBSCRIPTION" })) ∧
    (∀ (logId : String) (s : Store) (log : DeliveryLog) (sub : Subscription),
      (logId != "") = true →
      findDeliveryLogById logId s = some log →
      log.status ≠ DeliveryStatus.success →
      findSubscriptionById log.subscription_id s = some sub →
      sub.is_active = true →
      (retryFailedDelivery logId s).2.status = 200 ∧
      (retryFailedDelivery logId s).1.deliveryLogs = s.deliveryLogs ∧
      (retryFailedDelivery logId s).1.events = s.events ∧
      (retryFailedDelivery logId s).1.subscriptions = s.subscriptions ∧
      (retryFailedDelivery logId s).1.queue
        = s.queue ++ [QueueJob.delivery log.event_id log.subscription_id]) := by
  refine ⟨?_, ?_, ?_⟩
  · intro logId s log hid hfind hsucc
    unfold retryFailedDelivery
    simp only [bne_iff_ne, ne_eq] at hid
    simp [hid, hfind, hsucc]
  · intro logId s log sub hid hfind hsucc hsub hact
    unfold retryFailedDelivery
    simp only [bne_iff_ne, ne_eq] at hid
    simp [hid, hfind, hsucc, hsub, hact]
  · intro logId s log sub hid hfind hsucc hsub hact
    unfold retryFailedDelivery
    simp only [bne_iff_ne, ne_eq] at hid
    simp [hid, hfind, hsucc, hsub, hact]

/-! ## Claim C8 -/

/-- Lowercase hexadecimal digit characters. -/
def isLowerHexDigit (c : Char) : Bool := c.isDigit || ('a' ≤ c && c ≤ 'f')

/-- Every hex digit the encoder emits is a lowercase hex character. -/
theorem hexDigitChar_lower : ∀ n, n < 16 → isLowerHexDigit (hexDigitChar n) = true := by decide

/-- The hex encoding of any byte list consists of lowercase hex
characters. -/
theorem hexChars_lower (bs : List Nat) : (hexChars bs).all isLowerHexDigit = true := by
  induction bs with
  | nil => rfl
  | cons b rest ih =>
    simp only [hexChars, byteHexChars, List.cons_append, List.nil_append, List.all_cons,
      Bool.and_eq_true]
    exact ⟨hexDigitChar_lower _ (Nat.mod_lt _ (by omega)),
           hexDigitChar_lower _ (Nat.mod_lt _ (by omega)), ih⟩

/-- C8 (amended): every outbound delivery carries its HMAC signature in a
header named `X-AlgoHire-Signature` (the source never emits a header named
`X-Signature`), whose value is `"sha256=" ++` the lowercase hex encoding
of HMAC-SHA256(secret, body). -/
theorem C8_signature_header_scheme (payload secret eventType eventId : String) (nowSec : Nat) :
    ("X-AlgoHire-Signature",
       "sha256=" ++ hexOfBytes (hmacSha256 (utf8Bytes secret) (utf8Bytes payload)))
      ∈ generateWebhookHeaders payload secret eventType eventId nowSec ∧
    (generateWebhookHeaders payload secret eventType eventId nowSec).map Prod.fst
      = ["Content-Type", "X-AlgoHire-Signature", "X-AlgoHire-Timestamp",
         "X-AlgoHire-Event-Type", "X-AlgoHire-Event-ID", "User-Agent"] ∧
    "X-Signature" ∉ (generateWebhookHeaders payload secret eventType eventId nowSec).map Prod.fst ∧
    (generateHmacSignature payload secret).data.all isLowerHexDigit = true := by
  refine ⟨?_, rfl, ?_, ?_⟩
  · simp [generateWebhookHeaders, generateWebhookSignature, generateHmacSignature]
  · rw [show (generateWebhookHeaders payload secret eventType eventId nowSec).map Prod.fst
        = ["Content-Type", "X-AlgoHire-Signature", "X-AlgoHire-Timestamp",
           "X-AlgoHire-Event-Type", "X-AlgoHire-Event-ID", "User-Agent"] from rfl]
    decide
  · exact hexChars_lower _

/-- C8 counterexample: at concrete inputs the outbound header names are
the `X-AlgoHire-*` family and no header named `X-Signature` exists,
refuting the claim's header name. -/
theorem C8_signature_header_counterexample :
    (generateWebhookHeaders "body" "sec" "user.created" "e1" 0).map Prod.fst
      = ["Content-Type", "X-AlgoHire-Signature", "X-AlgoHire-Timestamp",
         "X-AlgoHire-Event-Type", "X-AlgoHire-Event-ID", "User-Agent"] ∧
    "X-Signature" ∉ (generateWebhookHeaders "body" "sec" "user.created" "e1" 0).map Prod.fst := by
  refine ⟨rfl, ?_⟩
  rw [show (generateWebhookHeaders "body" "sec" "user.created" "e1" 0).map Prod.fst
      = ["Content-Type", "X-AlgoHire-Signature", "X-AlgoHire-Timestamp",
         "X-AlgoHire-Event-Type", "X-AlgoHire-Event-ID", "User-Agent"] from rfl]
  decide

/-! ## Claim C10 -/

/-- C10: every subscription row `POST /subscriptions` adds is created with
`is_active = true`, whatever the request body holds: a subscription in the
post-state is either a pre-existing row or an active one. -/
theorem C10_created_subscription_is_active
    (req : CreateSubRequest) (freshId freshSecret : String) (now : Nat) (s : Store) :
    ∀ sub : Subscription,
      sub ∈ (createSubscription req freshId freshSecret now s).1.subscriptions →
      sub ∈ s.subscriptions ∨ sub.is_active = true := by
  intro sub hmem
  unfold createSubscription at hmem
  by_cases h1 : (req.eventType == "" || req.targetUrl == "") = true
  · rw [if_pos h1] at hmem
    exact Or.inl hmem
  · rw [if_neg h1] at hmem
    by_cases h2 : (!isValidWebhookUrl req.targetUrl) = true
    · rw [if_pos h2] at hmem
      exact Or.inl hmem
    · rw [if_neg h2] at hmem
      by_cases h3 : (s.subscriptions.any fun x =>
          x.event_type == req.eventType && x.target_url == req.targetUrl && x.is_active) = true
      · rw [if_pos h3] at hmem
        exact Or.inl hmem
      · rw [if_neg h3] at hmem
        simp only [List.mem_append, List.mem_singleton] at hmem
        cases hmem with
        | inl h => exact Or.inl h
        | inr h => subst h; exact Or.inr rfl

/-- C10 witness: a create request that explicitly asks for
`isActive = false` still yields an active subscription. -/
theorem C10_created_subscription_witness :
    ({ id := "n1", event_type := "user.created", target_url := "http://sink/ok",
       secret_key := "sec", is_active := true, created_at := 3, updated_at := 3 } : Subscription)
      ∈ emptyStore.subscriptions ∨
    ({ id := "n1", event_type := "user.created", target_url := "http://sink/ok",
       secret_key := "sec", is_active := true, created_at := 3, updated_at := 3 } : Subscription).is_active = true :=
  C10_created_subscription_is_active
    { eventType := "user.created", targetUrl := "http://sink/ok", isActive := some false }
    "n1" "sec" 3 emptyStore _ (by decide)

/-! ## Claims C3, C5, C6 -/

/-- The small fixture body passes request validation. -/
theorem validate_validSmallBody : validateEventRequest validSmallBody = none := by decide

/-- A key known absent from the events makes the duplicate lookup miss. -/
theorem findEventByKey_eq_none (k : String) (s : Store)
    (hmiss : s.events.all (fun e => e.idempotency_key != k) = true) :
    findEventByKey k s = none := by
  unfold findEventByKey
  apply List.find?_eq_none.mpr
  intro x hx
  have hh := List.all_eq_true.mp hmiss x hx
  simpa using hh

/-- When `find?` misses, `any` is false. -/
theorem any_eq_false_of_find?_eq_none (p : α → Bool) (l : List α)
    (h : l.find? p = none) : l.any p = false := by
  cases hb : l.any p with
  | false => rfl
  | true =>
    obtain ⟨x, hx, hpx⟩ := List.any_eq_true.mp hb
    exact absurd hpx (List.find?_eq_none.mp h x hx)

/-- C3 (amended): when two concurrent `POST /events` requests race on the
same idempotency key, the loser's pre-insert lookup misses, its insert
hits the unique constraint, and the controller's catch branch answers
HTTP 409 `DUPLICATE_IDEMPOTENCY_KEY` — not 202 — with no reference to the
winner's event row; the loser inserts no event and enqueues nothing. -/
theorem C3_race_loser_gets_409
    (k : String) (body : EventBody) (freshId : String) (now : Nat) (s : Store)
    (between : List Event)
    (hk : (k != "") = true)
    (hv : validateEventRequest body = none)
    (hmiss : s.events.all (fun e => e.idempotency_key != k) = true)
    (hwin : ((s.events ++ between).any (fun e => e.idempotency_key == k)) = true) :
    (processEventCore (some k) body freshId now s between).2
        = { status := 409, code := some "DUPLICATE_IDEMPOTENCY_KEY" } ∧
    (processEventCore (some k) body freshId now s between).2.eventId = none ∧
    (processEventCore (some k) body freshId now s between).1.events = s.events ++ between ∧
    (processEventCore (some k) body freshId now s between).1.queue = s.queue := by
  have hkf : (k == "") = false := by simpa using hk
  have hfind : findEventByKey k s = none := findEventByKey_eq_none k s hmiss
  unfold processEventCore
  simp [hkf, hv, hfind, hwin]

/-- C3 witness: the theorem applied to a concrete loser whose `create`
runs after the winner's insert landed. -/
theorem C3_race_loser_witness :
    (processEventCore (some "k1") validSmallBody "e10" 7 emptyStore [winnerEv]).2
        = { status := 409, code := some "DUPLICATE_IDEMPOTENCY_KEY" } ∧
    (processEventCore (some "k1") validSmallBody "e10" 7 emptyStore [winnerEv]).2.eventId = none ∧
    (processEventCore (some "k1") validSmallBody "e10" 7 emptyStore [winnerEv]).1.events
        = emptyStore.events ++ [winnerEv] ∧
    (processEventCore (some "k1") validSmallBody "e10" 7 emptyStore [winnerEv]).1.queue
        = emptyStore.queue :=
  C3_race_loser_gets_409 "k1" validSmallBody "e10" 7 emptyStore [winnerEv]
    rfl validate_validSmallBody rfl (by decide)

/-- C3 counterexample: the concrete race loser answers 409, not 202, and
references no event row, refuting the claim's "returns HTTP 202
referencing the winner's event row". -/
theorem C3_race_loser_counterexample :
    (processEventCore (some "k1") validSmallBody "e10" 7 emptyStore [winnerEv]).2.status = 409 ∧
    (processEventCore (some "k1") validSmallBody "e10" 7 emptyStore [winnerEv]).2.status ≠ 202 ∧
    (processEventCore (some "k1") validSmallBody "e10" 7 emptyStore [winnerEv]).2.eventId = none :=
  ⟨rfl, by decide, rfl⟩

/-- C5 (amended): creating a subscription enforces the at-most-one-active
rule per (event_type, target_url) — a create that would duplicate an
active pair is rejected with 409 `DUPLICATE_SUBSCRIPTION` and inserts
nothing — but updating performs no such check: an update of an existing
subscription applies its patch unconditionally and returns 200 even when
the result is a second active subscription with the same pair. -/
theorem C5_create_checks_update_does_not :
    (∀ (req : CreateSubRequest) (freshId freshSecret : String) (now : Nat) (s : Store),
      (req.eventType != "") = true →
      (req.targetUrl != "") = true →
      isValidWebhookUrl req.targetUrl = true →
      (s.subscriptions.any (fun x =>
        x.event_type == req.eventType && x.target_url == req.targetUrl && x.is_active)) = true →
      createSubscription req freshId freshSecret now s
        = (s, { status := 409, code := some "DUPLICATE_SUBSCRIPTION" })) ∧
    (∀ (subscriptionId : String) (req : UpdateSubRequest) (now : Nat) (s : Store),
      (subscriptionId != "") = true →
      optHolds (fun u => !isValidWebhookUrl u) req.targetUrl = false →
      (s.subscriptions.any (fun x => x.id == subscriptionId)) = true →
      (updateSubscription subscriptionId req now s).2.status = 200 ∧
      (updateSubscription subscriptionId req now s).1.subscriptions
        = s.subscriptions.map
            (fun x => if x.id == subscriptionId then applyPatch req now x else x)) := by
  constructor
  · intro req freshId freshSecret now s h1 h2 h3 h4
    have h1f : (req.eventType == "") = false := by simpa using h1
    have h2f : (req.targetUrl == "") = false := by simpa using h2
    unfold createSubscription
    simp [h1f, h2f, h3, h4]
  · intro subscriptionId req now s hid hurl hex
    have hidf : (subscriptionId == "") = false := by simpa using hid
    unfold updateSubscription
    simp [hidf, hurl, hex]

/-- C5 counterexample: updating subscription `s3` onto the (event_type,
target_url) pair of the active subscription `s1` succeeds with 200 and
leaves two active subscriptions with the same pair, refuting the claim
that updates are rejected with `DuplicateSubscription`. -/
theorem C5_update_duplicate_counterexample :
    (updateSubscription "s3"
        { eventType := some "user.created", targetUrl := some "http://sink/ok",
          isActive := some true } 9 storeTwoSubs).2.status = 200 ∧
    ((updateSubscription "s3"
        { eventType := some "user.created", targetUrl := some "http://sink/ok",
          isActive := some true } 9 storeTwoSubs).1.subscriptions.filter (fun x =>
        x.event_type == "user.created" && x.target_url == "http://sink/ok" && x.is_active)).length
      = 2 := ⟨rfl, rfl⟩

/-- C6: posting the same idempotency key twice yields two 202 responses
referencing the same event id; the second run returns the prior event's
id and `received_at`, creates no Event row and enqueues no fan-out job
(the store after the second run is the store after the first). -/
theorem C6_duplicate_key_replay
    (k : String) (body1 body2 : EventBody) (id1 id2 : String) (t1 t2 : Nat) (s : Store)
    (hk : (k != "") = true)
    (hv1 : validateEventRequest body1 = none)
    (hv2 : validateEventRequest body2 = none)
    (hmiss : s.events.all (fun e => e.idempotency_key != k) = true) :
    (processEvent (some k) body1 id1 t1 s).2.status = 202 ∧
    (processEvent (some k) body1 id1 t1 s).2.eventId = some id1 ∧
    (processEvent (some k) body2 id2 t2 (processEvent (some k) body1 id1 t1 s).1).2.status = 202 ∧
    (processEvent (some k) body2 id2 t2 (processEvent (some k) body1 id1 t1 s).1).2.eventId
      = some id1 ∧
    (processEvent (some k) body2 id2 t2 (processEvent (some k) body1 id1 t1 s).1).2.processedAt
      = some t1 ∧
    (processEvent (some k) body2 id2 t2 (processEvent (some k) body1 id1 t1 s).1).1
      = (processEvent (some k) body1 id1 t1 s).1 := by
  have hkf : (k == "") = false := by simpa using hk
  have hfind : findEventByKey k s = none := findEventByKey_eq_none k s hmiss
  have hany : (s.events.any (fun e => e.idempotency_key == k)) = false :=
    any_eq_false_of_find?_eq_none _ _ hfind
  have h1 : processEvent (some k) body1 id1 t1 s
      = ({ s with
            events := s.events ++
              [{ id := id1, idempotency_key := k, event_type := body1.eventType,
                 payload := (body1.payload).getD Json.null, received_at := t1 }],
            queue := s.queue ++ [QueueJob.fanout id1 body1.eventType] },
         { status := 202, eventId := some id1, receivedAt := some t1 }) := by
    unfold processEvent processEventCore
    simp [hkf, hv1, hfind, hany]
  have hfind2 : findEventByKey k (processEvent (some k) body1 id1 t1 s).1
      = some { id := id1, idempotency_key := k, event_type := body1.eventType,
               payload := (body1.payload).getD Json.null, received_at := t1 } := by
    rw [h1]
    show (s.events ++ [_]).find? _ = _
    rw [find?_append_all_neg _ _ _ hmiss]
    simp [List.find?]
  rw [h1] at hfind2 ⊢
  refine ⟨rfl, rfl, ?_, ?_, ?_, ?_⟩ <;>
    · unfold processEvent processEventCore
      simp [hkf, hv2, hfind2]

/-- C6 witness: the theorem applied to two concrete posts of key `k1`. -/
theorem C6_duplicate_key_witness :
    (processEvent (some "k1") validSmallBody "eA" 1 emptyStore).2.status = 202 ∧
    (processEvent (some "k1") validSmallBody "eA" 1 emptyStore).2.eventId = some "eA" ∧
    (processEvent (some "k1") validSmallBody "eB" 2
        (processEvent (some "k1") validSmallBody "eA" 1 emptyStore).1).2.status = 202 ∧
    (processEvent (some "k1") validSmallBody "eB" 2
        (processEvent (some "k1") validSmallBody "eA" 1 emptyStore).1).2.eventId = some "eA" ∧
    (processEvent (some "k1") validSmallBody "eB" 2
        (processEvent (some "k1") validSmallBody "eA" 1 emptyStore).1).2.processedAt = some 1 ∧
    (processEvent (some "k1") validSmallBody "eB" 2
        (processEvent (some "k1") validSmallBody "eA" 1 emptyStore).1).1
      = (processEvent (some "k1") validSmallBody "eA" 1 emptyStore).1 :=
  C6_duplicate_key_replay "k1" validSmallBody validSmallBody "eA" "eB" 1 2 emptyStore
    rfl validate_validSmallBody validate_validSmallBody rfl

/-! ## Claim C2 -/

/-- Mapping over an update-by-id pushes the map into both branches. -/
theorem map_updateLogById (g : DeliveryLog → β) (logId : String)
    (f : DeliveryLog → DeliveryLog) (logs : List DeliveryLog) :
    (updateLogById logId f logs).map g
      = logs.map (fun r => if r.id == logId then g (f r) else g r) := by
  unfold updateLogById
  rw [List.map_map]
  apply List.map_congr_left
  intro r _
  simp only [Function.comp]
  split <;> rfl

/-- The terminal row a failed (HTTP 500) delivery attempt leaves behind. -/
def failedRow500 (logId eventId subscriptionId : String) (fin : Nat) (d : Json) : DeliveryLog :=
  { id := logId, event_id := eventId, subscription_id := subscriptionId,
    status := DeliveryStatus.failed, attempt_count := 1, attempted_at := fin,
    response_status_code := some 500,
    response_body := if d.isTruthy then some (truncateBody (jsonStringify d)) else none,
    error_message := some (axiosErrorMessage 500) }

/-- A dispatch whose target answers HTTP 500 appends exactly one `failed`
row (attempt_count 1, status code 500) and throws for the queue to
retry. -/
theorem processWebhookDelivery_fail500
    (eventId subscriptionId : String) (attemptNumber : Nat) (logId : String)
    (now fin : Nat) (d : Json) (s : Store) (e : Event) (sub : Subscription)
    (hev : findEventById eventId s = some e)
    (hsub : findSubscriptionById subscriptionId s = some sub)
    (hact : sub.is_active = true)
    (hfresh : s.deliveryLogs.all (fun r => r.id != logId) = true) :
    processWebhookDelivery eventId subscriptionId attemptNumber logId now fin
        (HttpOutcome.response 500 d) s =
      ({ s with deliveryLogs := s.deliveryLogs ++ [failedRow500 logId eventId subscriptionId fin d] },
       JobResult.thrown (axiosErrorMessage 500)) := by
  unfold processWebhookDelivery
  rw [hev, hsub]
  simp only [hact, Bool.true_eq_false, if_false]
  norm_num
  rw [updateLogById_append_fresh logId _ s.deliveryLogs _ hfresh rfl]
  simp [failedRow500]

/-- C2 (amended): every DeliveryLog row the delivery worker creates has
`attempt_count = 1` — the source hardcodes the value and never reads the
queue-provided attempt number — so the rows of successive retries all
carry `attempt_count = 1` rather than strictly increasing values, and a
delivery retried to exhaustion under `MAX_RETRY_ATTEMPTS = 3` against a
sink answering 500 yields exactly three failed rows with
`response_status_code = 500`, each with `attempt_count = 1`. -/
theorem C2_attempt_count_always_one
    (eventId subscriptionId : String) (attemptNumber : Nat) (freshLogId : String)
    (now fin : Nat) (outcome : HttpOutcome) (s : Store) (e : Event) (sub : Subscription)
    (l1 l2 l3 : String) (d1 d2 d3 : Json)
    (hev : findEventById eventId s = some e)
    (hsub : findSubscriptionById subscriptionId s = some sub)
    (hact : sub.is_active = true)
    (hnil : s.deliveryLogs = [])
    (hd12 : (l1 != l2) = true) (hd13 : (l1 != l3) = true) (hd23 : (l2 != l3) = true) :
    ((processWebhookDelivery eventId subscriptionId attemptNumber freshLogId now fin
        outcome s).1.deliveryLogs.map DeliveryLog.attempt_count
      = s.deliveryLogs.map DeliveryLog.attempt_count ++ [1]) ∧
    ((runDeliveryAttempts eventId subscriptionId 1
        [(l1, HttpOutcome.response 500 d1), (l2, HttpOutcome.response 500 d2),
         (l3, HttpOutcome.response 500 d3)] now fin s).deliveryLogs.map
        (fun r => (r.attempt_count, r.status, r.response_status_code))
      = [(1, DeliveryStatus.failed, some 500), (1, DeliveryStatus.failed, some 500),
         (1, DeliveryStatus.failed, some 500)]) := by
  constructor
  · cases outcome with
    | response st data =>
      unfold processWebhookDelivery
      rw [hev, hsub]
      simp only [hact, Bool.true_eq_false, if_false]
      by_cases hst : (decide (200 ≤ st) && decide (st < 300)) = true
      · rw [if_pos hst]
        simp [map_updateLogById]
      · rw [if_neg hst]
        simp [map_updateLogById]
    | transportError msg =>
      unfold processWebhookDelivery
      rw [hev, hsub]
      simp only [hact, Bool.true_eq_false, if_false]
      simp [map_updateLogById]
  · have h1 := processWebhookDelivery_fail500 eventId subscriptionId 1 l1 now fin d1 s e sub
      hev hsub hact (by rw [hnil]; rfl)
    have h2 := processWebhookDelivery_fail500 eventId subscriptionId 2 l2 now fin d2
      { s with deliveryLogs := s.deliveryLogs ++ [failedRow500 l1 eventId subscriptionId fin d1] }
      e sub hev hsub hact
      (by rw [hnil]; simpa [failedRow500] using hd12)
    have h3 := processWebhookDelivery_fail500 eventId subscriptionId 3 l3 now fin d3
      { s with deliveryLogs := (s.deliveryLogs ++ [failedRow500 l1 eventId subscriptionId fin d1])
                                ++ [failedRow500 l2 eventId subscriptionId fin d2] }
      e sub hev hsub hact
      (by rw [hnil]; simp [failedRow500, hd13, hd23])
    simp only [runDeliveryAttempts, h1, h2, h3]
    simp [hnil, failedRow500]

/-- C2 witness: the theorem applied to a concrete store with an active
subscription, fresh log ids and arbitrary 500 bodies. -/
theorem C2_attempt_count_witness :
    ((processWebhookDelivery "e1" "s1" 5 "logX" 0 0
        (HttpOutcome.response 200 (Json.obj [])) storeActive).1.deliveryLogs.map
        DeliveryLog.attempt_count
      = storeActive.deliveryLogs.map DeliveryLog.attempt_count ++ [1]) ∧
    ((runDeliveryAttempts "e1" "s1" 1
        [("a1", HttpOutcome.response 500 Json.null), ("a2", HttpOutcome.response 500 Json.null),
         ("a3", HttpOutcome.response 500 Json.null)] 0 0 storeActive).deliveryLogs.map
        (fun r => (r.attempt_count, r.status, r.response_status_code))
      = [(1, DeliveryStatus.failed, some 500), (1, DeliveryStatus.failed, some 500),
         (1, DeliveryStatus.failed, some 500)]) :=
  C2_attempt_count_always_one "e1" "s1" 5 "logX" 0 0 (HttpOutcome.response 200 (Json.obj []))
    storeActive ev1 subActive "a1" "a2" "a3" Json.null Json.null Json.null
    rfl rfl rfl rfl rfl rfl rfl

/-- C2 counterexample: dispatched with queue attempt number 2, the worker
still writes `attempt_count = 1`, refuting the claim that the row carries
the queue-provided attempt number. -/
theorem C2_attempt_count_counterexample :
    ((processWebhookDelivery "e1" "s1" 2 "log1" 0 0
        (HttpOutcome.response 500 (Json.str "boom")) storeActive).1.deliveryLogs.map
        DeliveryLog.attempt_count = [1]) ∧ (1 : Nat) ≠ 2 := ⟨rfl, by decide⟩

/-! ## Claim C9 -/

/-- A string of `n` copies of `a`. -/
def bigStr (n : Nat) : String := String.mk (List.replicate n 'a')

/-- A JSON object payload whose compact serialization has `n + 8`
characters. -/
def bigPayload (n : Nat) : Json := Json.obj [("k", Json.str (bigStr n))]

/-- The letter `a` needs no JSON escaping. -/
theorem escChar_a : escChar 'a' = ['a'] := by decide

/-- Escaping a run of `a` characters is the identity. -/
theorem escapeChars_replicate_a (n : Nat) :
    escapeChars (List.replicate n 'a') = List.replicate n 'a' := by
  induction n with
  | zero => rfl
  | succ n ih => rw [List.replicate_succ]; simp [escapeChars, escChar_a, ih]

/-- Serialized size of the big payload. -/
theorem jsonChars_bigPayload_length (n : Nat) :
    (jsonChars (bigPayload n)).length = n + 8 := by
  have h : jsonChars (bigPayload n)
      = lcurly :: ((('\"' :: (escapeChars [ 'k' ] ++ [ '\"' ])) ++
          (':' :: ('\"' :: (escapeChars (List.replicate n 'a') ++ [ '\"' ])))) ++ [rcurly]) := rfl
  have hk : escapeChars [ 'k' ] = [ 'k' ] := by decide
  rw [h, hk, escapeChars_replicate_a]
  simp [List.length_append, List.length_replicate]

/-- C9: with a valid idempotency key and a valid `eventType`, a JSON
object payload whose serialization is exactly 1 MiB is accepted (202)
while one of 1 MiB + 1 is rejected with 400 `VALIDATION_ERROR`, leaving
the store untouched. -/
theorem C9_payload_one_mib_boundary
    (key : String) (body : EventBody) (p : Json) (freshId : String) (now : Nat) (s : Store)
    (hk : (key != "") = true)
    (ht1 : (body.eventType != "") = true)
    (ht2 : (trimmedLength body.eventType == 0) = false)
    (ht3 : eventTypeRegexTest body.eventType = true)
    (hp : body.payload = some p)
    (hobj : p.isObj = true) :
    ((jsonStringify p).length = 1048576 →
      (processEvent (some key) body freshId now s).2.status = 202) ∧
    ((jsonStringify p).length = 1048577 →
      (processEvent (some key) body freshId now s).2
        = { status := 400, code := some "VALIDATION_ERROR" } ∧
      (processEvent (some key) body freshId now s).1 = s) := by
  have hkf : (key == "") = false := by simpa using hk
  have ht1f : (body.eventType == "") = false := by simpa using ht1
  have hnn : p.isNull = false := by cases p <;> simp_all [Json.isObj, Json.isNull]
  have hot : p.isObjectTypeof = true := by cases p <;> simp_all [Json.isObj, Json.isObjectTypeof]
  constructor
  · intro hlen
    have hv : validateEventRequest body = none := by
      unfold validateEventRequest
      simp [ht1f, ht2, ht3, hp, hnn, hot, hlen]
    cases hfind : findEventByKey key s with
    | some ex =>
      unfold processEvent processEventCore
      simp [hkf, hv, hfind]
    | none =>
      have hany := any_eq_false_of_find?_eq_none _ _ hfind
      unfold processEvent processEventCore
      simp [hkf, hv, hfind, hany]
  · intro hlen
    have hv : validateEventRequest body = some "payload size exceeds 1MB limit" := by
      unfold validateEventRequest
      simp [ht1f, ht2, ht3, hp, hnn, hot, hlen]
    constructor <;> (unfold processEvent processEventCore; simp [hkf, hv])

/-- C9 witness: the theorem applied to a concrete payload of exactly
1 MiB, which the endpoint accepts with 202. -/
theorem C9_boundary_witness :
    (processEvent (some "k") { eventType := "a", payload := some (bigPayload 1048568) }
        "e" 0 emptyStore).2.status = 202 :=
  (C9_payload_one_mib_boundary "k"
      { eventType := "a", payload := some (bigPayload 1048568) }
      (bigPayload 1048568) "e" 0 emptyStore rfl rfl (by decide) (by decide) rfl rfl).1
    (by rw [show (jsonStringify (bigPayload 1048568)).length
          = (jsonChars (bigPayload 1048568)).length from rfl, jsonChars_bigPayload_length])

end WebhookRelay
